import Mathlib

/-!
Shallow embedding of the StepSight obstacle-alert pipeline
(`src/services/AIDetectionService.ts`) and proofs about its behaviour.

Conventions of the embedding:
* JavaScript numbers are modelled as rationals (`ℚ`); the `steps` field and
  timestamps, which the program only ever produces as integers
  (`Math.ceil`, `Date.now()`), are modelled as `ℤ`.
* JavaScript `Map` objects (insertion-ordered) are modelled as association
  lists `List (String × α)`; `Map.set` overwrites in place or appends.
* Optional fields (`isMoving?`, `velocity?`) become `Option`; JavaScript
  truthiness (`undefined`/`0`/`false` are falsy) is made explicit.
* `Math.sqrt` is real-valued and has no exact rational counterpart, so the
  development is parametric in a function `sq : ℚ → ℚ` standing for
  `fun q => Math.sqrt q`; every theorem below holds for every choice of `sq`.
* The class `AIDetectionService` becomes a state record `ServiceState`
  threaded explicitly through the methods that mutate it.
-/

namespace StepSight

/-- Lookup in an insertion-ordered string-keyed map (JS `Map.get`). -/
def mapLookup {α : Type} (m : List (String × α)) (k : String) : Option α :=
  (m.find? (fun kv => kv.1 == k)).map (fun kv => kv.2)

/-- Update/insert in an insertion-ordered string-keyed map (JS `Map.set`):
an existing key keeps its position, a new key is appended. -/
def mapSet {α : Type} (m : List (String × α)) (k : String) (v : α) :
    List (String × α) :=
  if m.any (fun kv => kv.1 == k) then
    m.map (fun kv => if kv.1 == k then (k, v) else kv)
  else
    m ++ [(k, v)]

/-- `boundingBox` field of `Detection` (src/services/AIDetectionService.ts:16). -/
structure BoundingBox where
  x : ℚ
  y : ℚ
  width : ℚ
  height : ℚ
  deriving DecidableEq, Repr

/-- The `Detection` interface (src/services/AIDetectionService.ts:3-22). -/
structure Detection where
  id : String
  label : String
  confidence : ℚ
  distance : ℚ
  steps : ℤ
  x : ℚ
  y : ℚ
  width : ℚ
  height : ℚ
  timestamp : ℤ
  isMoving : Option Bool
  velocity : Option ℚ
  boundingBox : BoundingBox
  deriving DecidableEq, Repr

instance : Inhabited Detection where
  default :=
    { id := "", label := "", confidence := 0, distance := 0, steps := 0,
      x := 0, y := 0, width := 0, height := 0, timestamp := 0,
      isMoving := none, velocity := none,
      boundingBox := { x := 0, y := 0, width := 0, height := 0 } }

/-- The `alertType` union `'urgent' | 'warning' | 'info'`. -/
inductive AlertType where
  | urgent
  | warning
  | info
  deriving DecidableEq, Repr

/-- The `ProcessedAlert` interface (src/services/AIDetectionService.ts:24-32). -/
structure ProcessedAlert where
  detection : Detection
  priority : ℚ
  shouldAnnounce : Bool
  shouldVibrate : Bool
  message : String
  suppressUntil : Option ℤ
  alertType : AlertType
  deriving DecidableEq, Repr

/-- The mutable fields of class `AIDetectionService` that the pipeline logic
reads or writes (`stepLength`, `lastAlerts`, `objectTracker`,
`alertCooldowns`). -/
structure ServiceState where
  stepLength : ℚ
  lastAlerts : List (String × ℤ)
  objectTracker : List (String × List Detection)
  alertCooldowns : List (String × ℤ)
  deriving DecidableEq, Repr

/-- `CENTER_FOV_THRESHOLD = 0.25`. -/
def CENTER_FOV_THRESHOLD : ℚ := 0.25

/-- `ALERT_COOLDOWN_MS = 4000`. -/
def ALERT_COOLDOWN_MS : ℤ := 4000

/-- `POSITION_CHANGE_THRESHOLD = 0.15`. -/
def POSITION_CHANGE_THRESHOLD : ℚ := 0.15

/-- `CLUSTER_DISTANCE_THRESHOLD = 0.8`. -/
def CLUSTER_DISTANCE_THRESHOLD : ℚ := 0.8

/-- `MIN_CONFIDENCE = 0.6`. -/
def MIN_CONFIDENCE : ℚ := 0.6

/-- `TRACKING_HISTORY_SIZE = 5`. -/
def TRACKING_HISTORY_SIZE : ℕ := 5

/-- `MOVEMENT_THRESHOLD = 0.05`. -/
def MOVEMENT_THRESHOLD : ℚ := 0.05

/-- `CRITICAL_OBJECTS`. -/
def CRITICAL_OBJECTS : List String :=
  ["person", "car", "bicycle", "motorcycle", "truck"]

/-- `WARNING_OBJECTS`. -/
def WARNING_OBJECTS : List String :=
  ["chair", "table", "door", "pole", "stairs", "step"]

/-- `INFO_OBJECTS`. -/
def INFO_OBJECTS : List String :=
  ["wall", "tree", "bench", "trash can", "sign"]

/-- JS truthiness of an optional boolean (`undefined` and `false` are falsy). -/
def boolTruthy (v : Option Bool) : Bool :=
  v.getD false

/-- JS truthiness of an optional number (`undefined` and `0` are falsy). -/
def numTruthy (v : Option ℚ) : Bool :=
  match v with
  | none => false
  | some q => q != 0

/-- The constructor `constructor(stepLength: number = 65, ...)`: it stores the
given step length unconditionally (the `config` field and the asynchronous
model initialisation have no influence on the pipeline logic). -/
def initService (stepLength : ℚ) : ServiceState :=
  { stepLength := stepLength, lastAlerts := [], objectTracker := [],
    alertCooldowns := [] }

/-- `updateStepLength(length)` — stores the new value unconditionally. -/
def updateStepLength (s : ServiceState) (length : ℚ) : ServiceState :=
  { s with stepLength := length }

/-- `metersToSteps(meters)`: `Math.ceil(meters / (stepLength / 100))`. -/
def metersToSteps (s : ServiceState) (meters : ℚ) : ℤ :=
  let stepLengthMeters : ℚ := s.stepLength / 100
  ⌈meters / stepLengthMeters⌉

/-- The tracking key `` `${label}_${Math.round(x * 10)}` ``; Mathlib's `round`
agrees with JS `Math.round` (half-up) on rationals. -/
def trackingKey (d : Detection) : String :=
  d.label ++ "_" ++ toString (round (d.x * 10) : ℤ)

/-- `filterCenterFOV`: keep detections with `|x - 0.5| ≤ CENTER_FOV_THRESHOLD`. -/
def filterCenterFOV (detections : List Detection) : List Detection :=
  detections.filter (fun d => |d.x - 0.5| ≤ CENTER_FOV_THRESHOLD)

/-- The per-detection keep condition of `filterByMovementAndProximity`
(src/services/AIDetectionService.ts:219-235). -/
def movementProximityKeep (d : Detection) : Bool :=
  if d.steps ≤ 2 then true
  else if boolTruthy d.isMoving && d.steps ≤ 6 then true
  else if CRITICAL_OBJECTS.contains d.label && d.steps ≤ 4 then true
  else if 0.8 < d.confidence && d.steps ≤ 5 then true
  else false

/-- `filterByMovementAndProximity`. -/
def filterByMovementAndProximity (detections : List Detection) :
    List Detection :=
  detections.filter movementProximityKeep

/-- One iteration of the `forEach` body of `updateObjectTracking`
(src/services/AIDetectionService.ts:187-213) on a single detection:
push onto the key's history, trim to `TRACKING_HISTORY_SIZE`, and when the
history has at least two entries derive `isMoving`/`velocity` from the two
most recent entries.  In the source the detection object pushed into the
history is the very object then mutated, so the stored last entry is the
annotated detection; the embedding stores the annotated copy to match.
`sq` stands for `Math.sqrt`. -/
def trackOne (sq : ℚ → ℚ) (tracker : List (String × List Detection))
    (d : Detection) : (List (String × List Detection)) × Detection :=
  let key := trackingKey d
  let history := (mapLookup tracker key).getD []
  let history := history ++ [d]
  let history :=
    if TRACKING_HISTORY_SIZE < history.length then history.drop 1 else history
  if 2 ≤ history.length then
    let prev := history.getD (history.length - 2) default
    let curr := history.getD (history.length - 1) default
    let movement := sq ((curr.x - prev.x) ^ 2 + (curr.y - prev.y) ^ 2)
    let annotated :=
      { d with
        isMoving := some (decide (MOVEMENT_THRESHOLD < movement)),
        velocity :=
          some (movement / (((curr.timestamp - prev.timestamp : ℤ) : ℚ) / 1000)) }
    (mapSet tracker key (history.dropLast ++ [annotated]), annotated)
  else
    (mapSet tracker key history, d)

/-- `cleanOldTrackingData` (src/services/AIDetectionService.ts:542-564):
drop tracker entries older than 10 s (deleting keys left empty) and
cooldown entries older than 30 s. -/
def cleanOldTrackingData (s : ServiceState) (now : ℤ) : ServiceState :=
  { s with
    objectTracker :=
      (s.objectTracker.map
        (fun kv => (kv.1, kv.2.filter (fun d => now - d.timestamp < 10000)))).filter
        (fun kv => !kv.2.isEmpty),
    lastAlerts := s.lastAlerts.filter (fun kv => now - kv.2 ≤ 30000) }

/-- `updateObjectTracking` (src/services/AIDetectionService.ts:184-217): the
`forEach` threads the tracker map through `trackOne` (the source mutates the
detections of the input array in place; the embedding returns the annotated
list), then runs `cleanOldTrackingData`. -/
def updateObjectTracking (sq : ℚ → ℚ) (s : ServiceState) (now : ℤ)
    (detections : List Detection) : ServiceState × List Detection :=
  let step := detections.foldl
    (fun (acc : (List (String × List Detection)) × List Detection) d =>
      let r := trackOne sq acc.1 d
      (r.1, acc.2 ++ [r.2]))
    (s.objectTracker, [])
  (cleanOldTrackingData { s with objectTracker := step.1 } now, step.2)

/-- The inner absorption loop of `clusterNearbyObjects`
(src/services/AIDetectionService.ts:250-260): scan the whole input list and
absorb every not-yet-processed detection within `CLUSTER_DISTANCE_THRESHOLD`
steps and `0.2` normalized-x of the cluster seed `d`. -/
def absorbCluster (d : Detection) (all : List Detection)
    (processed : List String) : List Detection × List String :=
  all.foldl
    (fun (acc : List Detection × List String) other =>
      if acc.2.contains other.id then acc
      else if |((d.steps : ℚ)) - ((other.steps : ℚ))| ≤ CLUSTER_DISTANCE_THRESHOLD
          && |d.x - other.x| ≤ 0.2 then
        (acc.1 ++ [other], acc.2 ++ [other.id])
      else acc)
    ([d], processed ++ [d.id])

/-- The outer greedy grouping loop of `clusterNearbyObjects`
(src/services/AIDetectionService.ts:243-263): `all` is the full input list
(the inner loop iterates over it), the second argument is the remaining
outer iteration. -/
def buildClusters (all : List Detection) :
    List Detection → List String → List (List Detection)
  | [], _ => []
  | d :: rest, processed =>
    if processed.contains d.id then buildClusters all rest processed
    else
      let r := absorbCluster d all processed
      r.1 :: buildClusters all rest r.2

/-- `Math.max` over a list of rationals (always applied to nonempty lists by
the clusterer; the `[]` case is unreachable there). -/
def listMaxQ : List ℚ → ℚ
  | [] => 0
  | x :: xs => xs.foldl max x

/-- `generateClusterLabel` (src/services/AIDetectionService.ts:290-301). -/
def generateClusterLabel (cluster : List Detection) : String :=
  match cluster with
  | [a, b] => a.label ++ " and " ++ b.label
  | _ =>
    let criticalCount :=
      (cluster.filter (fun d => CRITICAL_OBJECTS.contains d.label)).length
    if 0 < criticalCount then
      toString criticalCount ++ " critical object" ++
        (if 1 < criticalCount then "s" else "") ++ " and " ++
        toString (cluster.length - criticalCount) ++ " other" ++
        (if 1 < cluster.length - criticalCount then "s" else "")
    else
      toString cluster.length ++ " objects"

/-- Representative detection of one cluster
(src/services/AIDetectionService.ts:266-287): a singleton cluster is returned
unchanged; otherwise geometry comes from the closest (minimum-steps, first on
ties) member, confidence is the max, movement flags are aggregated, and a
fresh `cluster_<size>_<now>` id and a synthesized label are attached.
(The source also computes an unused local `hasCritical`.)  The `[]` case is
unreachable: `buildClusters` only emits clusters seeded with a detection. -/
def clusterRep (now : ℤ) : List Detection → Detection
  | [] => default
  | [d] => d
  | d :: rest =>
    let cluster := d :: rest
    let closest :=
      rest.foldl (fun prev curr => if curr.steps < prev.steps then curr else prev) d
    let hasMoving := cluster.any (fun x => boolTruthy x.isMoving)
    { closest with
      id := "cluster_" ++ toString cluster.length ++ "_" ++ toString now,
      label := generateClusterLabel cluster,
      confidence := listMaxQ (cluster.map (fun x => x.confidence)),
      isMoving := some hasMoving,
      velocity :=
        some (if hasMoving then listMaxQ (cluster.map (fun x => (x.velocity).getD 0))
              else 0) }

/-- `clusterNearbyObjects` (src/services/AIDetectionService.ts:237-288). -/
def clusterNearbyObjects (now : ℤ) (detections : List Detection) :
    List Detection :=
  if detections.length ≤ 1 then detections
  else (buildClusters detections detections []).map (clusterRep now)

/-- The per-detection keep condition of `applyTemporalFiltering`
(src/services/AIDetectionService.ts:306-329). -/
def temporalKeep (s : ServiceState) (now : ℤ) (d : Detection) : Bool :=
  let lastAlertTime := (mapLookup s.lastAlerts d.label).getD 0
  let timeSinceLastAlert := now - lastAlertTime
  if d.steps ≤ 1 then true
  else if timeSinceLastAlert < ALERT_COOLDOWN_MS then
    match mapLookup s.objectTracker (trackingKey d) with
    | some history =>
      if 2 ≤ history.length then
        decide (POSITION_CHANGE_THRESHOLD <
          |(history.headD default).x - (history.getLastD default).x|)
      else false
    | none => false
  else true

/-- `applyTemporalFiltering`. -/
def applyTemporalFiltering (s : ServiceState) (now : ℤ)
    (detections : List Detection) : List Detection :=
  detections.filter (temporalKeep s now)

/-- `calculatePriority` (src/services/AIDetectionService.ts:355-394). -/
def calculatePriority (d : Detection) : ℚ :=
  let p : ℚ :=
    if d.steps ≤ 1 then 50
    else if d.steps ≤ 2 then 30
    else if d.steps ≤ 4 then 15
    else max 0 (10 - (d.steps : ℚ))
  let p := p + (1 - |d.x - 0.5|) * 10
  let p := p +
    (if CRITICAL_OBJECTS.contains d.label then 20
     else if WARNING_OBJECTS.contains d.label then 10
     else if INFO_OBJECTS.contains d.label then 5
     else 0)
  let p := p +
    (if boolTruthy d.isMoving then
      15 + (if numTruthy d.velocity && decide (1 < (d.velocity).getD 0) then 10 else 0)
     else 0)
  p + d.confidence * 8

/-- `determineAlertType` (src/services/AIDetectionService.ts:414-422). -/
def determineAlertType (d : Detection) : AlertType :=
  if d.steps ≤ 1 || (boolTruthy d.isMoving && d.steps ≤ 2) then .urgent
  else if d.steps ≤ 3 || CRITICAL_OBJECTS.contains d.label then .warning
  else .info

/-- `generateContextualMessage` (src/services/AIDetectionService.ts:424-458).
The two branches of the `includes('multiple')` test build the same string, so
the main part is a single concatenation; `if (detection.velocity && ...)`
uses JS number truthiness. -/
def generateContextualMessage (d : Detection) : String :=
  let urgency : String :=
    if d.steps = 1 then "Stop! "
    else if d.steps = 2 && boolTruthy d.isMoving then "Caution! "
    else ""
  let main := d.label ++ " ahead in " ++ toString d.steps ++ " " ++
    (if d.steps = 1 then "step" else "steps")
  let movementPart : String :=
    if boolTruthy d.isMoving then
      if numTruthy d.velocity && decide (1.5 < (d.velocity).getD 0) then
        ", moving fast"
      else ", moving"
    else ""
  let directionPart : String :=
    if d.x < 0.3 then " to your left"
    else if 0.7 < d.x then " to your right"
    else ""
  urgency ++ main ++ movementPart ++ directionPart

/-- `createSmartAlert` (src/services/AIDetectionService.ts:396-412).
`isWeb` stands for `Platform.OS === 'web'`. -/
def createSmartAlert (isWeb : Bool) (d : Detection) (now : ℤ) :
    ProcessedAlert :=
  { detection := d,
    priority := calculatePriority d,
    shouldAnnounce := d.steps ≤ 8,
    shouldVibrate := decide (d.steps ≤ 2) && !isWeb,
    message := generateContextualMessage d,
    alertType := determineAlertType d,
    suppressUntil := if 2 < d.steps then some (now + ALERT_COOLDOWN_MS) else none }

/-- Stable insertion of a `(detection, priority)` pair into a list already
sorted by descending priority; a pair moves ahead only past strictly smaller
priorities, so equal priorities keep their input order, matching the
(stable) JS `sort((a, b) => b.priority - a.priority)`. -/
def insertDesc (x : Detection × ℚ) :
    List (Detection × ℚ) → List (Detection × ℚ)
  | [] => [x]
  | y :: ys => if y.2 < x.2 then x :: y :: ys else y :: insertDesc x ys

/-- Stable sort by descending priority. -/
def sortByPriorityDesc : List (Detection × ℚ) → List (Detection × ℚ)
  | [] => []
  | x :: xs => insertDesc x (sortByPriorityDesc xs)

/-- `generateSmartAlerts` (src/services/AIDetectionService.ts:332-353): on a
nonempty input, score and sort the detections, build one alert for the top
detection, and record `lastAlerts[label] = now` for that detection's label. -/
def generateSmartAlerts (isWeb : Bool) (s : ServiceState) (now : ℤ)
    (detections : List Detection) : ServiceState × List ProcessedAlert :=
  if detections.isEmpty then (s, [])
  else
    let prioritized :=
      sortByPriorityDesc (detections.map (fun d => (d, calculatePriority d)))
    match prioritized with
    | [] => (s, [])
    | top :: _ =>
      let alert := createSmartAlert isWeb top.1 now
      ({ s with lastAlerts := mapSet s.lastAlerts top.1.label now }, [alert])

/-- `applyDetectionPipeline` (src/services/AIDetectionService.ts:154-174):
confidence filter, center-FOV filter, tracker update (which mutates the
detections and the service state), proximity filter, clustering, temporal
filter. -/
def applyDetectionPipeline (sq : ℚ → ℚ) (s : ServiceState) (now : ℤ)
    (detections : List Detection) : ServiceState × List Detection :=
  let filtered := detections.filter (fun d => MIN_CONFIDENCE ≤ d.confidence)
  let filtered := filterCenterFOV filtered
  let r := updateObjectTracking sq s now filtered
  let filtered := filterByMovementAndProximity r.2
  let filtered := clusterNearbyObjects now filtered
  let filtered := applyTemporalFiltering r.1 now filtered
  (r.1, filtered)

/-- One tick of `processDetections` (src/services/AIDetectionService.ts:126-146)
on a given list of raw detections.  The source obtains `rawDetections`
either from the model or from the random simulation; the embedding takes
them as input (the spec's Detector collaborator).  The `try`/`catch` cannot
fire in the pure pipeline. -/
def processDetections (sq : ℚ → ℚ) (isWeb : Bool) (s : ServiceState)
    (now : ℤ) (rawDetections : List Detection) :
    ServiceState × List ProcessedAlert :=
  let r := applyDetectionPipeline sq s now rawDetections
  generateSmartAlerts isWeb r.1 now r.2

/-- The keep condition of the Proximity/Movement Filter as the specification
states it (spec §4.3.2), for comparison with `movementProximityKeep`. -/
def specProximityKeep (d : Detection) : Prop :=
  d.steps ≤ 2 ∨
  (boolTruthy d.isMoving = true ∧ d.steps ≤ 6) ∨
  (d.label ∈ CRITICAL_OBJECTS ∧ d.steps ≤ 4) ∨
  (0.8 < d.confidence ∧ d.steps ≤ 5)

/-- Convenience constructor for concrete detections used in instances below. -/
def mkDet (idv labelv : String) (conf : ℚ) (stepsv : ℤ) (xv yv : ℚ)
    (tsv : ℤ) (mov : Option Bool) (vel : Option ℚ) : Detection :=
  { id := idv, label := labelv, confidence := conf, distance := 0,
    steps := stepsv, x := xv, y := yv, width := 0.1, height := 0.1,
    timestamp := tsv, isMoving := mov, velocity := vel,
    boundingBox := { x := 0, y := 0, width := 0.1, height := 0.1 } }

/-- Stand-in for `Math.sqrt` in concrete instances; the code paths exercised
by those instances never evaluate it. -/
def sqZero : ℚ → ℚ := fun _ => 0

/-- Scenario detection of spec §8: a door at 3 steps, x = 0.2, moving at
2 m/s. -/
def doorDetection : Detection :=
  mkDet "door1" "door" 0.9 3 0.2 0.5 0 (some true) (some 2)

/-- First of three detections forming an overlap chain: A merges with B and
B merges with C, but A does not merge with C (x-distance 0.3 > 0.2). -/
def detA : Detection := mkDet "a" "wall" 0.9 3 0.1 0.5 0 none none

/-- Middle element of the overlap chain. -/
def detB : Detection := mkDet "b" "tree" 0.9 3 0.25 0.5 0 none none

/-- Last element of the overlap chain. -/
def detC : Detection := mkDet "c" "bench" 0.9 3 0.4 0.5 0 none none

/-- A raw detection that the Detector already flagged as moving, observed
for the first time (no prior tracking history). -/
def movingNewcomer : Detection :=
  mkDet "p1" "person" 0.9 3 0.5 0.5 1000 (some true) (some 1)

/-- A service state whose cooldown table holds one entry recorded at t = 0. -/
def staleAlertState : ServiceState :=
  { stepLength := 65, lastAlerts := [("chair", 0)], objectTracker := [],
    alertCooldowns := [] }

/-- Shape lemma for `generateSmartAlerts`: it either leaves the state alone
and emits nothing, or emits exactly one alert for some scored detection and
records that detection's label in `lastAlerts`. -/
theorem generateSmartAlerts_shape (isWeb : Bool) (s : ServiceState) (now : ℤ)
    (detections : List Detection) :
    ((generateSmartAlerts isWeb s now detections).2 = [] ∧
      (generateSmartAlerts isWeb s now detections).1 = s) ∨
    (∃ top : Detection × ℚ,
      (generateSmartAlerts isWeb s now detections).2 =
        [createSmartAlert isWeb top.1 now] ∧
      (generateSmartAlerts isWeb s now detections).1 =
        { s with lastAlerts := mapSet s.lastAlerts top.1.label now }) := by
  unfold generateSmartAlerts
  split
  · exact Or.inl ⟨rfl, rfl⟩
  · dsimp only
    split
    · exact Or.inl ⟨rfl, rfl⟩
    · next top _ _ => exact Or.inr ⟨top, rfl, rfl⟩

/-- The pipeline stage before alert generation rewrites `lastAlerts` only by
the 30 s garbage collection of `cleanOldTrackingData`. -/
theorem applyDetectionPipeline_lastAlerts (sq : ℚ → ℚ) (s : ServiceState)
    (now : ℤ) (detections : List Detection) :
    (applyDetectionPipeline sq s now detections).1.lastAlerts =
      (cleanOldTrackingData s now).lastAlerts := rfl

/-- Claim C1: every detection with `steps ≤ 1` in the input of the Temporal
Cooldown Filter appears in its output, for every cooldown state and clock:
detections at most one step away are never suppressed. -/
theorem temporalFiltering_never_suppresses_steps_le_one (s : ServiceState)
    (now : ℤ) (detections : List Detection) (d : Detection)
    (hmem : d ∈ detections) (hclose : d.steps ≤ 1) :
    d ∈ applyTemporalFiltering s now detections := by
  refine List.mem_filter.mpr ⟨hmem, ?_⟩
  simp [temporalKeep, hclose]

/-- Witness for C1 at a concrete close detection and a cooldown state in
which the same label was alerted at the current instant. -/
theorem temporalFiltering_never_suppresses_steps_le_one_witness :
    mkDet "w1" "person" 0.9 1 0.5 0.5 0 none none ∈
      applyTemporalFiltering
        { stepLength := 65, lastAlerts := [("person", 0)],
          objectTracker := [], alertCooldowns := [] } 0
        [mkDet "w1" "person" 0.9 1 0.5 0.5 0 none none] :=
  temporalFiltering_never_suppresses_steps_le_one _ _ _ _
    (by simp) (by decide)

/-- Claim C2: one tick of the pipeline emits at most one alert — both the
full `processDetections` tick and `generateSmartAlerts` on any detection
list return an alert list of length 0 or 1. -/
theorem at_most_one_alert_per_tick (sq : ℚ → ℚ) (isWeb : Bool)
    (s s2 : ServiceState) (now now2 : ℤ) (raw detections : List Detection) :
    (processDetections sq isWeb s now raw).2.length ≤ 1 ∧
    (generateSmartAlerts isWeb s2 now2 detections).2.length ≤ 1 := by
  constructor
  · show (generateSmartAlerts isWeb _ now _).2.length ≤ 1
    rcases generateSmartAlerts_shape isWeb
      (applyDetectionPipeline sq s now raw).1 now
      (applyDetectionPipeline sq s now raw).2 with ⟨h, _⟩ | ⟨top, h, _⟩ <;>
      simp [h]
  · rcases generateSmartAlerts_shape isWeb s2 now2 detections with
      ⟨h, _⟩ | ⟨top, h, _⟩ <;> simp [h]

/-- Claim C3: the Proximity/Movement Filter keeps a detection iff it is at
most 2 steps away, or moving and at most 6 steps away, or a critical-category
object at most 4 steps away, or has confidence above 0.8 and is at most
5 steps away; a detection satisfying none of these is dropped. -/
theorem movementProximity_keeps_iff_whitelist (detections : List Detection)
    (d : Detection) :
    d ∈ filterByMovementAndProximity detections ↔
      d ∈ detections ∧ specProximityKeep d := by
  unfold filterByMovementAndProximity
  rw [List.mem_filter]
  refine and_congr_right fun _ => ?_
  unfold movementProximityKeep specProximityKeep
  split_ifs with h1 h2 h3 h4 <;>
    simp_all [List.contains, List.elem_eq_mem]

/-- Claim C4 (counterexample): the constructor and `updateStepLength` accept
non-positive step lengths without any error, and `metersToSteps` is then
evaluated with the stored non-positive value, yielding a negative step
count for a positive distance. -/
theorem nonpositive_stepLength_accepted_cex :
    (initService (-1)).stepLength = -1 ∧
    (updateStepLength (initService 65) 0).stepLength = 0 ∧
    metersToSteps (initService (-1)) 2 = -200 := by
  refine ⟨rfl, rfl, ?_⟩
  show (⌈(2:ℚ) / ((-1) / 100)⌉ : ℤ) = -200
  norm_num
  rw [show ((-200:ℚ)) = ((-200 : ℤ) : ℚ) by norm_num, Int.ceil_intCast]

/-- Claim C4 (amended): configuration never rejects a non-positive step
length — the constructor and `updateStepLength` store any value unchanged,
and for a negative step length `metersToSteps` computes a non-positive step
count for every positive distance. -/
theorem nonpositive_stepLength_accepted (L : ℚ) (hL : L < 0)
    (s : ServiceState) (m : ℚ) (hm : 0 < m) :
    (initService L).stepLength = L ∧
    (updateStepLength s L).stepLength = L ∧
    metersToSteps (initService L) m ≤ 0 := by
  refine ⟨rfl, rfl, ?_⟩
  have hdiv : m / (L / 100) ≤ 0 :=
    le_of_lt (div_neg_of_pos_of_neg hm (by linarith))
  simpa [metersToSteps, initService] using Int.ceil_le.mpr (by simpa using hdiv)

/-- Witness for the amended C4 at step length −1 and distance 2 m. -/
theorem nonpositive_stepLength_accepted_witness :
    (initService (-1)).stepLength = -1 ∧
    (updateStepLength (initService 65) (-1)).stepLength = -1 ∧
    metersToSteps (initService (-1)) 2 ≤ 0 :=
  nonpositive_stepLength_accepted (-1) (by norm_num) (initService 65) 2
    (by norm_num)

/-- On a detection whose tracking key has no stored history, `trackOne` only
records the singleton history and returns the detection unchanged. -/
theorem trackOne_fresh (sq : ℚ → ℚ)
    (tracker : List (String × List Detection)) (d : Detection)
    (h : (mapLookup tracker (trackingKey d)).getD [] = []) :
    trackOne sq tracker d = (mapSet tracker (trackingKey d) [d], d) := by
  unfold trackOne
  simp [h, TRACKING_HISTORY_SIZE]

/-- `updateObjectTracking` on a single first-time detection: the tracker
gains the singleton history and the detection comes back unchanged. -/
theorem updateObjectTracking_single_fresh (sq : ℚ → ℚ) (s : ServiceState)
    (now : ℤ) (d : Detection)
    (h : (mapLookup s.objectTracker (trackingKey d)).getD [] = []) :
    updateObjectTracking sq s now [d] =
      (cleanOldTrackingData
        { s with objectTracker := mapSet s.objectTracker (trackingKey d) [d] }
        now, [d]) := by
  unfold updateObjectTracking
  simp [trackOne_fresh sq s.objectTracker d h]

/-- Claim C5 (counterexample): a detection whose track history holds exactly
one entry after the tracker update can still be marked moving — the raw
`isMoving = true` coming from the Detector is returned untouched. -/
theorem single_frame_keeps_detector_isMoving_cex :
    movingNewcomer.isMoving = some true ∧
    (updateObjectTracking sqZero (initService 65) 1000 [movingNewcomer]).2 =
      [movingNewcomer] ∧
    mapLookup
      (updateObjectTracking sqZero (initService 65) 1000 [movingNewcomer]).1.objectTracker
      (trackingKey movingNewcomer) = some [movingNewcomer] := by
  rw [updateObjectTracking_single_fresh sqZero (initService 65) 1000
    movingNewcomer rfl]
  refine ⟨rfl, rfl, ?_⟩
  simp [cleanOldTrackingData, initService, mapSet, mapLookup,
    movingNewcomer, mkDet]

/-- Claim C5 (amended): for a detection observed for the first time (its
track history has exactly one entry, namely itself, after the update), the
tracker returns the detection completely unchanged: it never sets
`isMoving` on a first observation, but it also does not clear a flag the
Detector already supplied. -/
theorem tracker_single_frame_leaves_detection_unchanged (sq : ℚ → ℚ)
    (s : ServiceState) (now : ℤ) (d : Detection)
    (hfresh : (mapLookup s.objectTracker (trackingKey d)).getD [] = []) :
    (updateObjectTracking sq s now [d]).2 = [d] := by
  unfold updateObjectTracking
  simp [trackOne, hfresh, TRACKING_HISTORY_SIZE]

/-- Witness for the amended C5 on a fresh service state. -/
theorem tracker_single_frame_leaves_detection_unchanged_witness :
    (updateObjectTracking sqZero (initService 65) 0
      [mkDet "n1" "chair" 0.9 4 0.5 0.5 0 none none]).2 =
      [mkDet "n1" "chair" 0.9 4 0.5 0.5 0 none none] :=
  tracker_single_frame_leaves_detection_unchanged sqZero (initService 65) 0 _
    (by decide)

/-- Claim C8: `metersToSteps` computes `⌈distance / (stepLength/100)⌉`, is
non-decreasing in the distance for a fixed positive step length, and
non-increasing in the step length for a fixed non-negative distance. -/
theorem metersToSteps_ceil_and_monotone (L L1 L2 m m1 m2 : ℚ)
    (hL : 0 < L) (hm12 : m1 ≤ m2) (hL1 : 0 < L1) (hL12 : L1 ≤ L2)
    (hm : 0 ≤ m) :
    metersToSteps (initService L) m = ⌈m / (L / 100)⌉ ∧
    metersToSteps (initService L) m1 ≤ metersToSteps (initService L) m2 ∧
    metersToSteps (initService L2) m ≤ metersToSteps (initService L1) m := by
  refine ⟨rfl, ?_, ?_⟩
  · show (⌈m1 / (L / 100)⌉ : ℤ) ≤ ⌈m2 / (L / 100)⌉
    exact Int.ceil_mono ((div_le_div_iff_of_pos_right (by positivity)).mpr hm12)
  · show (⌈m / (L2 / 100)⌉ : ℤ) ≤ ⌈m / (L1 / 100)⌉
    exact Int.ceil_mono
      (div_le_div_of_nonneg_left hm (by positivity) (by linarith))

/-- Witness for C8 at step lengths 50/65 cm and distances 1/2 m. -/
theorem metersToSteps_ceil_and_monotone_witness :
    metersToSteps (initService 65) 2 = ⌈(2 : ℚ) / (65 / 100)⌉ ∧
    metersToSteps (initService 65) 1 ≤ metersToSteps (initService 65) 2 ∧
    metersToSteps (initService 65) 2 ≤ metersToSteps (initService 50) 2 :=
  metersToSteps_ceil_and_monotone 65 50 65 2 1 2 (by norm_num) (by norm_num)
    (by norm_num) (by norm_num) (by norm_num)

/-- Claim C9: on the detection door/x = 0.2/3 steps/moving at 2 m/s, the
synthesizer produces the exact message
"door ahead in 3 steps, moving fast to your left" and the warning class. -/
theorem door_scenario_message_and_alertType :
    generateContextualMessage doorDetection =
      "door ahead in 3 steps, moving fast to your left" ∧
    determineAlertType doorDetection = AlertType.warning := by
  constructor
  · show generateContextualMessage (mkDet "door1" "door" 0.9 3 0.2 0.5 0
      (some true) (some 2)) = _
    norm_num [generateContextualMessage, mkDet, boolTruthy, numTruthy]
    rfl
  · show determineAlertType (mkDet "door1" "door" 0.9 3 0.2 0.5 0
      (some true) (some 2)) = _
    norm_num [determineAlertType, mkDet, boolTruthy, CRITICAL_OBJECTS]

/-- Claim C6 (counterexample): clustering is not order-independent.  For the
overlap chain `detA`–`detB`–`detC` (equal steps; x = 0.1, 0.25, 0.4), the
input order starting at `detA` yields two clusters, while the permuted order
starting at `detB` absorbs everything into one cluster, so the outputs
differ in content, not merely in ids. -/
theorem cluster_not_order_independent_cex :
    List.Perm [detB, detA, detC] [detA, detB, detC] ∧
    (clusterNearbyObjects 0 [detA, detB, detC]).length = 2 ∧
    (clusterNearbyObjects 0 [detB, detA, detC]).length = 1 := by
  refine ⟨List.Perm.swap detA detB [detC], ?_, ?_⟩ <;>
  · norm_num [clusterNearbyObjects, buildClusters, absorbCluster,
      detA, detB, detC, mkDet, CLUSTER_DISTANCE_THRESHOLD, abs_le]
    simp

/-- Claim C6 (amended): the Clusterer is deterministic in the given input
order and idempotent on singleton input, but it is not order-independent:
a permutation of the input can change the resulting clusters (greedy
first-come grouping).  The surviving provable part: a singleton input is
returned unchanged. -/
theorem cluster_idempotent_on_singleton (now : ℤ) (d : Detection) :
    clusterNearbyObjects now [d] = [d] := by
  simp [clusterNearbyObjects]

/-- Claim C7 (counterexample): on a tick that emits no alert the cooldown
table is not always unchanged — the garbage collection inside the tracking
step deletes entries older than 30 s even when nothing is emitted. -/
theorem cooldown_gc_on_quiet_tick_cex :
    (processDetections sqZero false staleAlertState 31000 []).2 = [] ∧
    (processDetections sqZero false staleAlertState 31000 []).1.lastAlerts = [] ∧
    staleAlertState.lastAlerts = [("chair", 0)] :=
  ⟨rfl, rfl, rfl⟩

/-- Claim C7 (amended): during one tick, the cooldown table receives a write
only for the label of the alert actually emitted that tick: on a no-alert
tick `lastAlerts` is exactly the input table after the 30 s garbage
collection eviction (no entry is added or refreshed), and on a tick that
emits the single alert `a`, it is that evicted table with
`a.detection.label` (the synthesized label of the emitted alert) set to
`now`. -/
theorem cooldown_table_written_only_on_emit (sq : ℚ → ℚ) (isWeb : Bool)
    (s : ServiceState) (now : ℤ) (raw : List Detection) :
    ((processDetections sq isWeb s now raw).2 = [] →
      (processDetections sq isWeb s now raw).1.lastAlerts =
        (cleanOldTrackingData s now).lastAlerts) ∧
    (∀ a : ProcessedAlert, (processDetections sq isWeb s now raw).2 = [a] →
      (processDetections sq isWeb s now raw).1.lastAlerts =
        mapSet (cleanOldTrackingData s now).lastAlerts a.detection.label now) := by
  have hproc : processDetections sq isWeb s now raw =
      generateSmartAlerts isWeb (applyDetectionPipeline sq s now raw).1 now
        (applyDetectionPipeline sq s now raw).2 := rfl
  have hla := applyDetectionPipeline_lastAlerts sq s now raw
  rcases generateSmartAlerts_shape isWeb (applyDetectionPipeline sq s now raw).1
    now (applyDetectionPipeline sq s now raw).2 with ⟨h2, h1⟩ | ⟨top, h2, h1⟩
  · constructor
    · intro _
      rw [hproc, h1, hla]
    · intro a ha
      rw [hproc, h2] at ha
      exact absurd ha (by simp)
  · constructor
    · intro hempty
      rw [hproc, h2] at hempty
      exact absurd hempty (by simp)
    · intro a ha
      rw [hproc, h2] at ha
      have haeq : a = createSmartAlert isWeb top.1 now := by
        simpa using ha.symm
      rw [hproc, h1, haeq, hla]
      rfl

/-- Claim C10: the alert built by `createSmartAlert` carries
`suppressUntil = now + ALERT_COOLDOWN_MS` iff the detection is more than
2 steps away, and carries no suppression timestamp iff it is within
2 steps. -/
theorem suppressUntil_iff_steps_gt_two (isWeb : Bool) (d : Detection)
    (now : ℤ) :
    ((createSmartAlert isWeb d now).suppressUntil =
        some (now + ALERT_COOLDOWN_MS) ↔ 2 < d.steps) ∧
    ((createSmartAlert isWeb d now).suppressUntil = none ↔ d.steps ≤ 2) := by
  unfold createSmartAlert
  dsimp only
  split_ifs with h
  · exact ⟨by simp [h], by simp; omega⟩
  · exact ⟨by simp; omega, by simp; omega⟩

end StepSight
